import Mathlib

/-!
Shallow embedding of the DPG integrator library (dpgintegrators.hpp) and the
NumProcGetComponent post-processing utility.

Real scalars of the host framework are modelled by ℚ (exact values, so that
copy/evaluation identities can be stated exactly); C++ complex numbers by
pairs of ℚ; the C++ conversion from a floating value to `int` by truncation
toward zero (`cppInt`).  NGSolve `Array` indexing is modelled by `List.get?`,
so that an out-of-bounds coefficient access makes a constructor return `none`.
-/

/-- C++ truncation of a real value toward zero, as in `int(x)`. -/
def cppInt (q : ℚ) : ℤ := if 0 ≤ q then ⌊q⌋ else ⌈q⌉

/-- A host `CoefficientFunction`, abstracted to the three queries this code
performs on it: `IsComplex()`, `EvaluateConst()` and the real/imaginary pair
returned by `EvaluateComplex(ip)` (the coefficients fed to these integrators
are spatially constant, so the integration point is irrelevant). -/
structure CoefficientFunction where
  isComplex : Bool
  evaluateConst : ℚ
  evaluateComplex : ℚ × ℚ
deriving DecidableEq

/-- A real constant coefficient of value `v`. -/
def constCoeff (v : ℚ) : CoefficientFunction :=
  { isComplex := false, evaluateConst := v, evaluateComplex := (v, 0) }

/-- A complex constant coefficient of value `v` (a pair of real and
imaginary parts). -/
def constCoeffC (v : ℚ × ℚ) : CoefficientFunction :=
  { isComplex := true, evaluateConst := v.1, evaluateComplex := v }

/-- NGSolve's volume-vs-boundary selector `VorB`. -/
inductive VorB
  | VOL
  | BND
deriving DecidableEq

/-- Base class `DPGintegrator`: stores the first two coefficient arguments
and the two component indices resolved from them at construction. -/
structure DPGintegrator where
  comp1 : CoefficientFunction
  comp2 : CoefficientFunction
  ind1 : ℤ
  ind2 : ℤ
deriving DecidableEq

/-- The `DPGintegrator(coeffs)` constructor: reads `coeffs[0]` and
`coeffs[1]`; if `comp1->IsComplex()` both indices come from
`EvaluateComplex(ip).real()`, otherwise both come from `EvaluateConst()`;
each is truncated to `int` and decremented by one. -/
def DPGintegrator.mk' (coeffs : List CoefficientFunction) : Option DPGintegrator := do
  let c1 ← coeffs.get? 0
  let c2 ← coeffs.get? 1
  if c1.isComplex then
    pure { comp1 := c1, comp2 := c2,
           ind1 := cppInt c1.evaluateComplex.1 - 1,
           ind2 := cppInt c2.evaluateComplex.1 - 1 }
  else
    pure { comp1 := c1, comp2 := c2,
           ind1 := cppInt c1.evaluateConst - 1,
           ind2 := cppInt c2.evaluateConst - 1 }

def DPGintegrator.GetInd1 (d : DPGintegrator) : ℤ := d.ind1

def DPGintegrator.GetInd2 (d : DPGintegrator) : ℤ := d.ind2

/-- `GradGrad<D>`: integrates a(x)·∇u·∇v over the element interior.
The phantom parameter `D` carries the C++ template argument. -/
structure GradGrad (D : ℤ) extends DPGintegrator where
  coeff_a : CoefficientFunction
deriving DecidableEq

/-- The `GradGrad(coeffs)` constructor: base construction plus `coeffs[2]`. -/
def GradGrad.mk' (D : ℤ) (coeffs : List CoefficientFunction) : Option (GradGrad D) := do
  let base ← DPGintegrator.mk' coeffs
  let a ← coeffs.get? 2
  pure { toDPGintegrator := base, coeff_a := a }

def GradGrad.IsSymmetric {D : ℤ} (g : GradGrad D) : Bool := !g.coeff_a.isComplex

def GradGrad.Name {D : ℤ} (_ : GradGrad D) : String := "GradGrad"

def GradGrad.BoundaryForm {D : ℤ} (_ : GradGrad D) : Bool := false

def GradGrad.VB {D : ℤ} (_ : GradGrad D) : VorB := VorB.VOL

/-- `FluxTrace<D>`: integrates d(x)·(q·n)·v on all element boundaries. -/
structure FluxTrace (D : ℤ) extends DPGintegrator where
  coeff_d : CoefficientFunction
deriving DecidableEq

def FluxTrace.mk' (D : ℤ) (coeffs : List CoefficientFunction) : Option (FluxTrace D) := do
  let base ← DPGintegrator.mk' coeffs
  let d ← coeffs.get? 2
  pure { toDPGintegrator := base, coeff_d := d }

def FluxTrace.IsSymmetric {D : ℤ} (g : FluxTrace D) : Bool := !g.coeff_d.isComplex

def FluxTrace.Name {D : ℤ} (_ : FluxTrace D) : String := "FluxTrace"

def FluxTrace.BoundaryForm {D : ℤ} (_ : FluxTrace D) : Bool := false

def FluxTrace.VB {D : ℤ} (_ : FluxTrace D) : VorB := VorB.VOL

/-- `EyeEye<D>`: integrates a(x)·u·v over the element interior. -/
structure EyeEye (D : ℤ) extends DPGintegrator where
  coeff_a : CoefficientFunction
deriving DecidableEq

def EyeEye.mk' (D : ℤ) (coeffs : List CoefficientFunction) : Option (EyeEye D) := do
  let base ← DPGintegrator.mk' coeffs
  let a ← coeffs.get? 2
  pure { toDPGintegrator := base, coeff_a := a }

def EyeEye.IsSymmetric {D : ℤ} (g : EyeEye D) : Bool := !g.coeff_a.isComplex

def EyeEye.Name {D : ℤ} (_ : EyeEye D) : String := "EyeEye"

def EyeEye.BoundaryForm {D : ℤ} (_ : EyeEye D) : Bool := false

def EyeEye.VB {D : ℤ} (_ : EyeEye D) : VorB := VorB.VOL

/-- `TraceTrace<D>`: integrates c(x)·u·v over element boundaries. -/
structure TraceTrace (D : ℤ) extends DPGintegrator where
  coeff_c : CoefficientFunction
deriving DecidableEq

def TraceTrace.mk' (D : ℤ) (coeffs : List CoefficientFunction) : Option (TraceTrace D) := do
  let base ← DPGintegrator.mk' coeffs
  let c ← coeffs.get? 2
  pure { toDPGintegrator := base, coeff_c := c }

def TraceTrace.IsSymmetric {D : ℤ} (g : TraceTrace D) : Bool := !g.coeff_c.isComplex

def TraceTrace.Name {D : ℤ} (_ : TraceTrace D) : String := "TraceTrace"

def TraceTrace.BoundaryForm {D : ℤ} (_ : TraceTrace D) : Bool := false

def TraceTrace.VB {D : ℤ} (_ : TraceTrace D) : VorB := VorB.VOL

/-- `FluxFluxBoundary<D>`: integrates c(x)·(q·n)·(r·n) over the global boundary. -/
structure FluxFluxBoundary (D : ℤ) extends DPGintegrator where
  coeff_c : CoefficientFunction
deriving DecidableEq

def FluxFluxBoundary.mk' (D : ℤ) (coeffs : List CoefficientFunction) :
    Option (FluxFluxBoundary D) := do
  let base ← DPGintegrator.mk' coeffs
  let c ← coeffs.get? 2
  pure { toDPGintegrator := base, coeff_c := c }

def FluxFluxBoundary.IsSymmetric {D : ℤ} (g : FluxFluxBoundary D) : Bool :=
  !g.coeff_c.isComplex

def FluxFluxBoundary.Name {D : ℤ} (_ : FluxFluxBoundary D) : String := "FluxFluxBoundary"

def FluxFluxBoundary.DimElement {D : ℤ} (_ : FluxFluxBoundary D) : ℤ := D - 1

def FluxFluxBoundary.DimSpace {D : ℤ} (_ : FluxFluxBoundary D) : ℤ := D

def FluxFluxBoundary.BoundaryForm {D : ℤ} (_ : FluxFluxBoundary D) : Bool := true

def FluxFluxBoundary.VB {D : ℤ} (_ : FluxFluxBoundary D) : VorB := VorB.BND

/-- `TraceTraceBoundary<D>`: integrates c(x)·u·e over the global boundary
(both spaces must expose surface elements). -/
structure TraceTraceBoundary (D : ℤ) extends DPGintegrator where
  coeff_c : CoefficientFunction
deriving DecidableEq

def TraceTraceBoundary.mk' (D : ℤ) (coeffs : List CoefficientFunction) :
    Option (TraceTraceBoundary D) := do
  let base ← DPGintegrator.mk' coeffs
  let c ← coeffs.get? 2
  pure { toDPGintegrator := base, coeff_c := c }

def TraceTraceBoundary.IsSymmetric {D : ℤ} (g : TraceTraceBoundary D) : Bool :=
  !g.coeff_c.isComplex

def TraceTraceBoundary.Name {D : ℤ} (_ : TraceTraceBoundary D) : String :=
  "TraceTraceBoundary"

def TraceTraceBoundary.DimElement {D : ℤ} (_ : TraceTraceBoundary D) : ℤ := D - 1

def TraceTraceBoundary.DimSpace {D : ℤ} (_ : TraceTraceBoundary D) : ℤ := D

def TraceTraceBoundary.BoundaryForm {D : ℤ} (_ : TraceTraceBoundary D) : Bool := true

def TraceTraceBoundary.VB {D : ℤ} (_ : TraceTraceBoundary D) : VorB := VorB.BND

/-- `RobinVolume<D>`: integrates c(x)·u·e over the facets of a volume element
that lie on the global boundary; reported to the host as a volume form. -/
structure RobinVolume (D : ℤ) extends DPGintegrator where
  coeff_c : CoefficientFunction
deriving DecidableEq

def RobinVolume.mk' (D : ℤ) (coeffs : List CoefficientFunction) :
    Option (RobinVolume D) := do
  let base ← DPGintegrator.mk' coeffs
  let c ← coeffs.get? 2
  pure { toDPGintegrator := base, coeff_c := c }

def RobinVolume.IsSymmetric {D : ℤ} (g : RobinVolume D) : Bool := !g.coeff_c.isComplex

def RobinVolume.Name {D : ℤ} (_ : RobinVolume D) : String := "RobinVolume"

def RobinVolume.DimElement {D : ℤ} (_ : RobinVolume D) : ℤ := D

def RobinVolume.DimSpace {D : ℤ} (_ : RobinVolume D) : ℤ := D

def RobinVolume.BoundaryForm {D : ℤ} (_ : RobinVolume D) : Bool := false

def RobinVolume.VB {D : ℤ} (_ : RobinVolume D) : VorB := VorB.VOL

/-- `FluxTraceBoundary<D>`: integrates c(x)·(q·n)·w over the global boundary. -/
structure FluxTraceBoundary (D : ℤ) extends DPGintegrator where
  coeff_c : CoefficientFunction
deriving DecidableEq

def FluxTraceBoundary.mk' (D : ℤ) (coeffs : List CoefficientFunction) :
    Option (FluxTraceBoundary D) := do
  let base ← DPGintegrator.mk' coeffs
  let c ← coeffs.get? 2
  pure { toDPGintegrator := base, coeff_c := c }

def FluxTraceBoundary.IsSymmetric {D : ℤ} (g : FluxTraceBoundary D) : Bool :=
  !g.coeff_c.isComplex

def FluxTraceBoundary.Name {D : ℤ} (_ : FluxTraceBoundary D) : String :=
  "FluxTraceBoundary"

def FluxTraceBoundary.DimElement {D : ℤ} (_ : FluxTraceBoundary D) : ℤ := D - 1

def FluxTraceBoundary.DimSpace {D : ℤ} (_ : FluxTraceBoundary D) : ℤ := D

def FluxTraceBoundary.BoundaryForm {D : ℤ} (_ : FluxTraceBoundary D) : Bool := true

def FluxTraceBoundary.VB {D : ℤ} (_ : FluxTraceBoundary D) : VorB := VorB.BND

/-- `NeumannVolume<D>`: the source integrator; not a `DPGintegrator`
subclass. Its constructor reads `coeffs[0]` through `coeffs[4]`
unconditionally, for every template dimension `D`. -/
structure NeumannVolume (D : ℤ) where
  coeff_index : CoefficientFunction
  coeff_g : CoefficientFunction
  coeff_Gx : CoefficientFunction
  coeff_Gy : CoefficientFunction
  coeff_Gz : CoefficientFunction
  indx : ℤ
deriving DecidableEq

/-- The `NeumannVolume(coeffs)` constructor: member initializers read
`coeffs[0] .. coeffs[4]`, then the body resolves
`indx = int(coeff_index->EvaluateConst()) - 1`. -/
def NeumannVolume.mk' (D : ℤ) (coeffs : List CoefficientFunction) :
    Option (NeumannVolume D) := do
  let c0 ← coeffs.get? 0
  let c1 ← coeffs.get? 1
  let c2 ← coeffs.get? 2
  let c3 ← coeffs.get? 3
  let c4 ← coeffs.get? 4
  pure { coeff_index := c0, coeff_g := c1, coeff_Gx := c2, coeff_Gy := c3,
         coeff_Gz := c4, indx := cppInt c0.evaluateConst - 1 }

def NeumannVolume.Name {D : ℤ} (_ : NeumannVolume D) : String := "NeumannVolume"

def NeumannVolume.DimElement {D : ℤ} (_ : NeumannVolume D) : ℤ := D

def NeumannVolume.DimSpace {D : ℤ} (_ : NeumannVolume D) : ℤ := D

def NeumannVolume.BoundaryForm {D : ℤ} (_ : NeumannVolume D) : Bool := false

def NeumannVolume.VB {D : ℤ} (_ : NeumannVolume D) : VorB := VorB.VOL

/-- A C++ `Complex` value: a pair of real and imaginary parts. -/
structure Cpx where
  re : ℚ
  im : ℚ
deriving DecidableEq

/-- The host `Flags` object, reduced to the three kinds of lookups this
code performs: numeric flags, define (boolean) flags and string flags. -/
structure Flags where
  numFlags : List (String × ℚ)
  defineFlags : List String
  strFlags : List (String × String)

/-- `Flags::GetNumFlag(name, default)`. -/
def Flags.GetNumFlag (fl : Flags) (name : String) (d : ℚ) : ℚ :=
  match fl.numFlags.lookup name with
  | some v => v
  | none => d

/-- `Flags::GetDefineFlag(name)`. -/
def Flags.GetDefineFlag (fl : Flags) (name : String) : Bool :=
  fl.defineFlags.contains name

/-- `Flags::GetStringFlag(name, default)`. -/
def Flags.GetStringFlag (fl : Flags) (name : String) (d : String) : String :=
  match fl.strFlags.lookup name with
  | some v => v
  | none => d

/-- State of `NumProcGetComponent` after construction: the two grid-function
names, the resolved 0-based component index and the two projection flags. -/
structure NumProcGetComponent where
  compoundgf : String
  componentgf : String
  ind : ℤ
  re : Bool
  im : Bool
deriving DecidableEq

/-- The `NumProcGetComponent(apde, flags)` constructor:
`ind = flags.GetNumFlag("comp",1) - 1` (assigned to an `int`, hence
truncated), `re = flags.GetDefineFlag("re")`, `im = flags.GetDefineFlag("im")`. -/
def NumProcGetComponent.mk' (flags : Flags) : NumProcGetComponent :=
  { compoundgf := flags.GetStringFlag "compoundgf" ""
    componentgf := flags.GetStringFlag "componentgf" ""
    ind := cppInt (flags.GetNumFlag "comp" 1 - 1)
    re := flags.GetDefineFlag "re"
    im := flags.GetDefineFlag "im" }

/-- `GridFunction::GetComponent(ind)` on a compound grid function, modelled
on the list of component solution vectors; a negative or out-of-range index
has no component to return. -/
def getComponent (components : List (List Cpx)) (ind : ℤ) : Option (List Cpx) :=
  if 0 ≤ ind then components.get? ind.toNat else none

/-- The `for (i=0; i < n; i++) dest[i] = f(src[i])` loop of
`NumProcGetComponent::Do`, where `n` is the size of the destination vector:
builds the destination entries in index order, reading `src[i]` through the
unchecked `FV` view (out of range reads yield `none`). -/
def copyLoop (f : Cpx → ℚ) (src : List Cpx) : ℕ → Option (List ℚ)
  | 0 => pure []
  | n + 1 => do
    let dest ← copyLoop f src n
    let v ← src.get? n
    pure (dest ++ [f v])

/-- Result of one run of `NumProcGetComponent::Do`: either the destination
real vector written entry by entry (`re`/`im` branches), or a full copy of
the component's vector (`else` branch). -/
inductive DoResult
  | realOut (v : List ℚ)
  | fullCopy (v : List Cpx)
deriving DecidableEq

/-- `NumProcGetComponent::Do`: if `re`, write the real parts of component
`ind`'s entries into the destination; else if `im`, the imaginary parts;
else copy the component's whole vector.  `components` holds the component
vectors of the compound grid function `gf1`; `destSize` is the size of the
destination vector `gf2`. -/
def NumProcGetComponent.Do (np : NumProcGetComponent)
    (components : List (List Cpx)) (destSize : ℕ) : Option DoResult := do
  let comp ← getComponent components np.ind
  if np.re then
    (copyLoop Cpx.re comp destSize).map DoResult.realOut
  else if np.im then
    (copyLoop Cpx.im comp destSize).map DoResult.realOut
  else
    pure (DoResult.fullCopy comp)

/-- A member function invocable on an integrator object after construction. -/
inductive MemberCall
  | calcElementMatrixReal
  | calcElementMatrixComplex
  | calcElementVectorReal
  | calcElementVectorComplex
  | nameCall
  | isSymmetricCall
  | boundaryFormCall
  | vbCall
  | dimElementCall
  | dimSpaceCall
  | getInd1Call
  | getInd2Call

/-- Any of the integrator objects of this library, at template dimension `D`. -/
inductive AnyIntegrator (D : ℤ)
  | gradGrad (g : GradGrad D)
  | fluxTrace (g : FluxTrace D)
  | eyeEye (g : EyeEye D)
  | traceTrace (g : TraceTrace D)
  | fluxFluxBoundary (g : FluxFluxBoundary D)
  | traceTraceBoundary (g : TraceTraceBoundary D)
  | robinVolume (g : RobinVolume D)
  | fluxTraceBoundary (g : FluxTraceBoundary D)
  | neumannVolume (g : NeumannVolume D)
deriving DecidableEq

/-- The component indices of the object, as returned by `GetInd1()` and
`GetInd2()` (absent on `NeumannVolume`, which is not a `DPGintegrator`). -/
def AnyIntegrator.getInds {D : ℤ} : AnyIntegrator D → Option (ℤ × ℤ)
  | .gradGrad g => some (g.toDPGintegrator.GetInd1, g.toDPGintegrator.GetInd2)
  | .fluxTrace g => some (g.toDPGintegrator.GetInd1, g.toDPGintegrator.GetInd2)
  | .eyeEye g => some (g.toDPGintegrator.GetInd1, g.toDPGintegrator.GetInd2)
  | .traceTrace g => some (g.toDPGintegrator.GetInd1, g.toDPGintegrator.GetInd2)
  | .fluxFluxBoundary g => some (g.toDPGintegrator.GetInd1, g.toDPGintegrator.GetInd2)
  | .traceTraceBoundary g => some (g.toDPGintegrator.GetInd1, g.toDPGintegrator.GetInd2)
  | .robinVolume g => some (g.toDPGintegrator.GetInd1, g.toDPGintegrator.GetInd2)
  | .fluxTraceBoundary g => some (g.toDPGintegrator.GetInd1, g.toDPGintegrator.GetInd2)
  | .neumannVolume _ => none

/-- Effect of one member call on the object's state.  Every member function
invocable after construction is declared `const` and no data member is
`mutable`, so each call leaves the object unchanged.  Modelled from the
spec for the bodies of `T_CalcElementMatrix` / `T_CalcElementVector`, which
live outside this excerpt: they are declared `const` here and the spec
states the integrator has no per-call mutable state, so they too preserve
the object (they write only the caller-supplied output buffer and heap). -/
def memberCallStep {D : ℤ} (a : AnyIntegrator D) : MemberCall → AnyIntegrator D
  | .calcElementMatrixReal => a
  | .calcElementMatrixComplex => a
  | .calcElementVectorReal => a
  | .calcElementVectorComplex => a
  | .nameCall => a
  | .isSymmetricCall => a
  | .boundaryFormCall => a
  | .vbCall => a
  | .dimElementCall => a
  | .dimSpaceCall => a
  | .getInd1Call => a
  | .getInd2Call => a

/-- The object's state after a sequence of member calls. -/
def runCalls {D : ℤ} (a : AnyIntegrator D) (calls : List MemberCall) : AnyIntegrator D :=
  calls.foldl memberCallStep a

/-- Index resolution as the spec's words describe it for each single
argument: constant evaluation when the argument is real-valued, complex
point evaluation when it is complex-valued, truncated and decremented. -/
def resolveIndexSpec (c : CoefficientFunction) : ℤ :=
  if c.isComplex then cppInt c.evaluateComplex.1 - 1 else cppInt c.evaluateConst - 1

/-- A coefficient that is complex-valued and, like any host coefficient,
also answers `EvaluateConst()`; its two access modes disagree. -/
def mixedCoeff : CoefficientFunction :=
  { isComplex := true, evaluateConst := 5, evaluateComplex := (2, 0) }

theorem cppInt_natCast (n : ℕ) : cppInt (n : ℚ) = n := by
  simp [cppInt]

theorem cppInt_cast_add_one (i : ℕ) : cppInt ((i : ℚ) + 1) = (i : ℤ) + 1 := by
  have h : ((i : ℚ) + 1) = ((i + 1 : ℕ) : ℚ) := by push_cast; ring
  rw [h, cppInt_natCast]
  push_cast
  ring

/-- Unfolding of the base constructor on a list with at least two entries:
both indices are resolved in the mode selected by the first argument. -/
theorem DPGintegrator_mk'_cons (c1 c2 : CoefficientFunction)
    (rest : List CoefficientFunction) :
    DPGintegrator.mk' (c1 :: c2 :: rest) =
      some { comp1 := c1, comp2 := c2,
             ind1 := (if c1.isComplex then cppInt c1.evaluateComplex.1
                      else cppInt c1.evaluateConst) - 1,
             ind2 := (if c1.isComplex then cppInt c2.evaluateComplex.1
                      else cppInt c2.evaluateConst) - 1 } := by
  cases h : c1.isComplex <;> simp [DPGintegrator.mk', h]

theorem DPGintegrator_mk'_constCoeff (i j : ℕ) (rest : List CoefficientFunction) :
    DPGintegrator.mk'
        (constCoeff ((i : ℚ) + 1) :: constCoeff ((j : ℚ) + 1) :: rest) =
      some { comp1 := constCoeff ((i : ℚ) + 1), comp2 := constCoeff ((j : ℚ) + 1),
             ind1 := i, ind2 := j } := by
  rw [DPGintegrator_mk'_cons]
  simp [constCoeff, cppInt_cast_add_one]

theorem DPGintegrator_mk'_constCoeffC (i j : ℕ) (rest : List CoefficientFunction) :
    DPGintegrator.mk'
        (constCoeffC ((i : ℚ) + 1, 0) :: constCoeffC ((j : ℚ) + 1, 0) :: rest) =
      some { comp1 := constCoeffC ((i : ℚ) + 1, 0), comp2 := constCoeffC ((j : ℚ) + 1, 0),
             ind1 := i, ind2 := j } := by
  rw [DPGintegrator_mk'_cons]
  simp [constCoeffC, cppInt_cast_add_one]

theorem copyLoop_append_of_le (f : Cpx → ℚ) (l : List Cpx) (x : Cpx) :
    ∀ n, n ≤ l.length → copyLoop f (l ++ [x]) n = copyLoop f l n := by
  intro n
  induction n with
  | zero => intro _; rfl
  | succ m ih =>
      intro hm
      have hlt : m < l.length := Nat.lt_of_succ_le hm
      rw [copyLoop, copyLoop, ih (Nat.le_of_lt hlt), List.get?_append hlt]

/-- Running the copy loop for exactly the source's length writes the image of
the whole source, entry by entry. -/
theorem copyLoop_self (f : Cpx → ℚ) (src : List Cpx) :
    copyLoop f src src.length = some (src.map f) := by
  induction src using List.reverseRecOn with
  | nil => rfl
  | append_singleton l x ih =>
      have hlen : (l ++ [x]).length = l.length + 1 := by simp
      rw [hlen, copyLoop, copyLoop_append_of_le f l x l.length (Nat.le_refl _), ih,
        List.get?_concat_length]
      simp

/-- C1: for every pair of integers (i, j), constructing any paired-space DPG
integrator whose first two coefficient arguments are the constants i+1 and j+1
yields an object with GetInd1() = i and GetInd2() = j; shown for the base
constructor (with real and with complex constant arguments) and for the seven
matrix integrator variants. -/
theorem C1_index_resolution (i j : ℕ) (D : ℤ) (c : CoefficientFunction)
    (rest : List CoefficientFunction) :
    ((DPGintegrator.mk'
        (constCoeff ((i : ℚ) + 1) :: constCoeff ((j : ℚ) + 1) :: rest)).map
        (fun d => (d.GetInd1, d.GetInd2)) = some ((i : ℤ), (j : ℤ))) ∧
    ((DPGintegrator.mk'
        (constCoeffC ((i : ℚ) + 1, 0) :: constCoeffC ((j : ℚ) + 1, 0) :: rest)).map
        (fun d => (d.GetInd1, d.GetInd2)) = some ((i : ℤ), (j : ℤ))) ∧
    ((GradGrad.mk' D
        (constCoeff ((i : ℚ) + 1) :: constCoeff ((j : ℚ) + 1) :: c :: rest)).map
        (fun g => (g.toDPGintegrator.GetInd1, g.toDPGintegrator.GetInd2))
      = some ((i : ℤ), (j : ℤ))) ∧
    ((FluxTrace.mk' D
        (constCoeff ((i : ℚ) + 1) :: constCoeff ((j : ℚ) + 1) :: c :: rest)).map
        (fun g => (g.toDPGintegrator.GetInd1, g.toDPGintegrator.GetInd2))
      = some ((i : ℤ), (j : ℤ))) ∧
    ((EyeEye.mk' D
        (constCoeff ((i : ℚ) + 1) :: constCoeff ((j : ℚ) + 1) :: c :: rest)).map
        (fun g => (g.toDPGintegrator.GetInd1, g.toDPGintegrator.GetInd2))
      = some ((i : ℤ), (j : ℤ))) ∧
    ((TraceTrace.mk' D
        (constCoeff ((i : ℚ) + 1) :: constCoeff ((j : ℚ) + 1) :: c :: rest)).map
        (fun g => (g.toDPGintegrator.GetInd1, g.toDPGintegrator.GetInd2))
      = some ((i : ℤ), (j : ℤ))) ∧
    ((FluxFluxBoundary.mk' D
        (constCoeff ((i : ℚ) + 1) :: constCoeff ((j : ℚ) + 1) :: c :: rest)).map
        (fun g => (g.toDPGintegrator.GetInd1, g.toDPGintegrator.GetInd2))
      = some ((i : ℤ), (j : ℤ))) ∧
    ((TraceTraceBoundary.mk' D
        (constCoeff ((i : ℚ) + 1) :: constCoeff ((j : ℚ) + 1) :: c :: rest)).map
        (fun g => (g.toDPGintegrator.GetInd1, g.toDPGintegrator.GetInd2))
      = some ((i : ℤ), (j : ℤ))) ∧
    ((RobinVolume.mk' D
        (constCoeff ((i : ℚ) + 1) :: constCoeff ((j : ℚ) + 1) :: c :: rest)).map
        (fun g => (g.toDPGintegrator.GetInd1, g.toDPGintegrator.GetInd2))
      = some ((i : ℤ), (j : ℤ))) ∧
    ((FluxTraceBoundary.mk' D
        (constCoeff ((i : ℚ) + 1) :: constCoeff ((j : ℚ) + 1) :: c :: rest)).map
        (fun g => (g.toDPGintegrator.GetInd1, g.toDPGintegrator.GetInd2))
      = some ((i : ℤ), (j : ℤ))) := by
  refine ⟨?_, ?_, ?_, ?_, ?_, ?_, ?_, ?_, ?_, ?_⟩ <;>
    simp [DPGintegrator_mk'_constCoeff, DPGintegrator_mk'_constCoeffC,
      GradGrad.mk', FluxTrace.mk', EyeEye.mk', TraceTrace.mk',
      FluxFluxBoundary.mk', TraceTraceBoundary.mk', RobinVolume.mk',
      FluxTraceBoundary.mk', DPGintegrator.GetInd1, DPGintegrator.GetInd2]

/-- C2: for each of the seven matrix integrator variants, IsSymmetric() on a
constructed object is the negation of the complex-valuedness of the physical
coefficient (the third constructor argument): true when it is real-valued,
false when it is complex-valued. -/
theorem C2_isSymmetric_iff_real_coefficient (D : ℤ) (c1 c2 c : CoefficientFunction)
    (rest : List CoefficientFunction) :
    ((GradGrad.mk' D (c1 :: c2 :: c :: rest)).map GradGrad.IsSymmetric
      = some (!c.isComplex)) ∧
    ((EyeEye.mk' D (c1 :: c2 :: c :: rest)).map EyeEye.IsSymmetric
      = some (!c.isComplex)) ∧
    ((TraceTrace.mk' D (c1 :: c2 :: c :: rest)).map TraceTrace.IsSymmetric
      = some (!c.isComplex)) ∧
    ((FluxFluxBoundary.mk' D (c1 :: c2 :: c :: rest)).map FluxFluxBoundary.IsSymmetric
      = some (!c.isComplex)) ∧
    ((TraceTraceBoundary.mk' D (c1 :: c2 :: c :: rest)).map TraceTraceBoundary.IsSymmetric
      = some (!c.isComplex)) ∧
    ((RobinVolume.mk' D (c1 :: c2 :: c :: rest)).map RobinVolume.IsSymmetric
      = some (!c.isComplex)) ∧
    ((FluxTraceBoundary.mk' D (c1 :: c2 :: c :: rest)).map FluxTraceBoundary.IsSymmetric
      = some (!c.isComplex)) := by
  refine ⟨?_, ?_, ?_, ?_, ?_, ?_, ?_⟩ <;>
    simp [DPGintegrator_mk'_cons, GradGrad.mk', EyeEye.mk', TraceTrace.mk',
      FluxFluxBoundary.mk', TraceTraceBoundary.mk', RobinVolume.mk',
      FluxTraceBoundary.mk', GradGrad.IsSymmetric, EyeEye.IsSymmetric,
      TraceTrace.IsSymmetric, FluxFluxBoundary.IsSymmetric,
      TraceTraceBoundary.IsSymmetric, RobinVolume.IsSymmetric,
      FluxTraceBoundary.IsSymmetric]

/-- C3: the NeumannVolume constructor reads the fifth coefficient argument
unconditionally, so in 2D the documented 4-argument call
(neumannvol ind g Gx Gy) accesses an argument beyond the fourth and fails,
while a 5-argument call succeeds. -/
theorem C3_neumannVolume_reads_fifth_argument :
    (NeumannVolume.mk' 2 [constCoeff 1, constCoeff 0, constCoeff 0, constCoeff 0]
      = none) ∧
    (NeumannVolume.mk' 2 [constCoeff 1, constCoeff 0, constCoeff 0, constCoeff 0,
        constCoeff 0]).isSome = true :=
  ⟨rfl, rfl⟩

/-- C4 counterexample: with a real-valued first argument and a complex-valued
second argument, the code resolves the second index by constant evaluation
(giving 4 here) rather than by complex point evaluation as the claim states
(which would give 1). -/
theorem C4_counterexample :
    ¬ ((DPGintegrator.mk' [constCoeff 1, mixedCoeff]).map DPGintegrator.GetInd2
        = some (resolveIndexSpec mixedCoeff)) := by
  decide

/-- C4 amended: both of the first two coefficient arguments are resolved in the
evaluation mode selected by whether the FIRST argument is complex-valued
(complex point evaluation if so, point-independent constant evaluation
otherwise), then truncated to integer and decremented by 1. -/
theorem C4_amended_first_argument_selects_mode (c1 c2 : CoefficientFunction)
    (rest : List CoefficientFunction) :
    DPGintegrator.mk' (c1 :: c2 :: rest) =
      some { comp1 := c1, comp2 := c2,
             ind1 := (if c1.isComplex then cppInt c1.evaluateComplex.1
                      else cppInt c1.evaluateConst) - 1,
             ind2 := (if c1.isComplex then cppInt c2.evaluateComplex.1
                      else cppInt c2.evaluateConst) - 1 } :=
  DPGintegrator_mk'_cons c1 c2 rest

/-- C6: each boundary-only variant reports BoundaryForm() = true, VB() = BND,
DimElement() = D - 1 and DimSpace() = D. -/
theorem C6_boundary_variants_dimensions (D : ℤ) (c1 c2 c : CoefficientFunction)
    (rest : List CoefficientFunction) :
    ((FluxFluxBoundary.mk' D (c1 :: c2 :: c :: rest)).map
        (fun f => (f.BoundaryForm, f.VB, f.DimElement, f.DimSpace))
      = some (true, VorB.BND, D - 1, D)) ∧
    ((TraceTraceBoundary.mk' D (c1 :: c2 :: c :: rest)).map
        (fun f => (f.BoundaryForm, f.VB, f.DimElement, f.DimSpace))
      = some (true, VorB.BND, D - 1, D)) ∧
    ((FluxTraceBoundary.mk' D (c1 :: c2 :: c :: rest)).map
        (fun f => (f.BoundaryForm, f.VB, f.DimElement, f.DimSpace))
      = some (true, VorB.BND, D - 1, D)) := by
  refine ⟨?_, ?_, ?_⟩ <;>
    simp [DPGintegrator_mk'_cons, FluxFluxBoundary.mk', TraceTraceBoundary.mk',
      FluxTraceBoundary.mk', FluxFluxBoundary.BoundaryForm, FluxFluxBoundary.VB,
      FluxFluxBoundary.DimElement, FluxFluxBoundary.DimSpace,
      TraceTraceBoundary.BoundaryForm, TraceTraceBoundary.VB,
      TraceTraceBoundary.DimElement, TraceTraceBoundary.DimSpace,
      FluxTraceBoundary.BoundaryForm, FluxTraceBoundary.VB,
      FluxTraceBoundary.DimElement, FluxTraceBoundary.DimSpace]

/-- C7: RobinVolume reports itself as a volume form: BoundaryForm() = false,
VB() = VOL, and DimElement() = DimSpace() = D. -/
theorem C7_robinVolume_is_volume_form (D : ℤ) (c1 c2 c : CoefficientFunction)
    (rest : List CoefficientFunction) :
    (RobinVolume.mk' D (c1 :: c2 :: c :: rest)).map
        (fun r => (r.BoundaryForm, r.VB, r.DimElement, r.DimSpace))
      = some (false, VorB.VOL, D, D) := by
  simp [DPGintegrator_mk'_cons, RobinVolume.mk', RobinVolume.BoundaryForm,
    RobinVolume.VB, RobinVolume.DimElement, RobinVolume.DimSpace]

/-- C5: when component k of the compound grid function has complex entries
a+bi and the destination has the component's length, extraction with the real
flag writes exactly the a values, with the imaginary flag exactly the b
values, with neither flag the full complex component vector, and the written
vectors have the component's length (the copy is exact). -/
theorem C5_extraction_exact (k : ℤ) (components : List (List Cpx))
    (src : List Cpx) (s1 s2 : String)
    (h : getComponent components k = some src) :
    (NumProcGetComponent.Do ⟨s1, s2, k, true, false⟩ components src.length
      = some (DoResult.realOut (src.map Cpx.re))) ∧
    (NumProcGetComponent.Do ⟨s1, s2, k, false, true⟩ components src.length
      = some (DoResult.realOut (src.map Cpx.im))) ∧
    (NumProcGetComponent.Do ⟨s1, s2, k, false, false⟩ components src.length
      = some (DoResult.fullCopy src)) ∧
    (src.map Cpx.re).length = src.length ∧
    (src.map Cpx.im).length = src.length := by
  refine ⟨?_, ?_, ?_, by simp, by simp⟩ <;>
    simp [NumProcGetComponent.Do, h, copyLoop_self]

/-- C5 witness: extraction at a concrete two-entry complex component. -/
theorem C5_extraction_exact_witness :
    NumProcGetComponent.Do ⟨"u", "u1", 0, true, false⟩ [[⟨1, 2⟩, ⟨3, 4⟩]] 2
      = some (DoResult.realOut [1, 3]) :=
  (C5_extraction_exact 0 [[⟨1, 2⟩, ⟨3, 4⟩]] [⟨1, 2⟩, ⟨3, 4⟩] "u" "u1" rfl).1

/-- C8: every integrator object is immutable after construction: any sequence
of member calls leaves its state unchanged, so in particular GetInd1() and
GetInd2() return the same values across all calls. -/
theorem C8_immutable_after_construction (D : ℤ) (a : AnyIntegrator D)
    (calls : List MemberCall) :
    runCalls a calls = a ∧ (runCalls a calls).getInds = a.getInds := by
  have h : runCalls a calls = a := by
    induction calls with
    | nil => rfl
    | cons c cs ih =>
        have hstep : memberCallStep a c = a := by cases c <;> rfl
        show (c :: cs).foldl memberCallStep a = a
        rw [List.foldl_cons, hstep]
        exact ih
  exact ⟨h, by rw [h]⟩

/-- C9: with both the real and the imaginary flag set, Do behaves exactly as
if only the real flag were set (the imaginary branch is never reached). -/
theorem C9_both_flags_behave_as_real (s1 s2 : String) (k : ℤ)
    (components : List (List Cpx)) (destSize : ℕ) :
    NumProcGetComponent.Do ⟨s1, s2, k, true, true⟩ components destSize
      = NumProcGetComponent.Do ⟨s1, s2, k, true, false⟩ components destSize := by
  rfl

/-- C10: when no "comp" flag is supplied, the component index defaults to 1
(1-based), the internal 0-based index is 0, and the first component of the
compound grid function is the one selected. -/
theorem C10_default_component_is_first (fl : Flags)
    (h : fl.numFlags.lookup "comp" = none) (c : List Cpx) (cs : List (List Cpx)) :
    (NumProcGetComponent.mk' fl).ind = 0 ∧
    getComponent (c :: cs) (NumProcGetComponent.mk' fl).ind = some c := by
  have hind : (NumProcGetComponent.mk' fl).ind = 0 := by
    simp [NumProcGetComponent.mk', Flags.GetNumFlag, h, cppInt]
  refine ⟨hind, ?_⟩
  rw [hind]
  rfl

/-- C10 witness: an empty flag set yields index 0 and selects the first
component. -/
theorem C10_default_component_is_first_witness :
    (NumProcGetComponent.mk' ⟨[], [], []⟩).ind = 0 ∧
    getComponent [[⟨1, 2⟩]] (NumProcGetComponent.mk' ⟨[], [], []⟩).ind
      = some [⟨1, 2⟩] :=
  C10_default_component_is_first ⟨[], [], []⟩ rfl [⟨1, 2⟩] []
